import Mathlib

/-!
Shallow embedding of the session-memory subsystem and prompt router of the
Git-wrapper repository.

Sources embedded:
* `src/memory/memory_handler.py` — class `MemoryHandler` (initialization with
  vector-store downgrade, `save_interaction`, `load_context`,
  `format_context_for_prompt`, `clear_memory`, and their private helpers);
* `src/routers/router_manager.py` — `route_prompt`;
* `src/main.py` — `process_prompt` and the session-id resolution in `main`.

Modelling conventions:
* The per-session JSONL files are modelled as a map from session id to the
  optional list of decoded records (`none` = the file does not exist).  Each
  line that `_save_to_session_file` writes is one `Turn` record; `json.dumps`
  / `json.loads` round-tripping is the identity at this level.
* The chroma collection is modelled as a list of documents in insertion order.
* Python exceptions are modelled with `Except PyErr`; operations whose body
  catches every exception are total functions.  Fallible external effects
  (`Path.mkdir`, the file write, the file read, the embedding call, the index
  call, `Path.unlink`) succeed or fail according to boolean fields of an
  environment record `Env`, mirroring which concrete call may raise.
* Python truthiness of optional-string arguments (`if session_id:`) is
  modelled by `optTruthy`: both `None` and `""` are falsy.
-/

/-- One JSONL record as written by `MemoryHandler._save_to_session_file`
(fields `timestamp`, `role`, `model`, `prompt`, `response`). -/
structure Turn where
  timestamp : String
  role : String
  model : String
  prompt : String
  response : String
  deriving DecidableEq, Repr

/-- The record that one `save_interaction` call writes: the role field is
always `"user"`. -/
def mkTurn (ts model prompt response : String) : Turn :=
  { timestamp := ts, role := "user", model := model, prompt := prompt,
    response := response }

/-- The session-file directory: session id `s` names the file `<s>.jsonl`;
`none` means the file does not exist. -/
abbrev FS := String → Option (List Turn)

/-- One document of the chroma collection, as added by
`MemoryHandler._save_to_vector_store` (id, document text and metadata). -/
structure VDoc where
  docId : String
  text : String
  sessionId : String
  model : String
  prompt : String
  response : String
  timestamp : String
  deriving DecidableEq, Repr

/-- The persistent state owned by the memory layer: the session files and the
vector collection. -/
structure Store where
  files : FS
  docs : List VDoc

/-- Python exceptions relevant to the embedded code. -/
inductive PyErr where
  | valueErr (msg : String)
  | osErr (msg : String)
  deriving DecidableEq, Repr

/-- Outcome of the fallible external calls made during one operation:
`mkdirOk` — `Path.mkdir` in `ensure_dir_exists`; `writeOk` — the
`open`/`write` of the session file; `readOk` — the `open`/read/`json.loads`
of the session file (and the collection query); `embedOk` — the
`SentenceTransformer.encode` call; `indexOk` — the `collection.add` /
`collection.delete` call; `unlinkOk` — `Path.unlink`. -/
structure Env where
  mkdirOk : Bool
  writeOk : Bool
  readOk : Bool
  embedOk : Bool
  indexOk : Bool
  unlinkOk : Bool
  deriving DecidableEq, Repr

/-- The `memory:` section of the configuration, with the defaults used by
`MemoryHandler.__init__` (`config.get(...)`). -/
structure MemConfig where
  enabled : Bool := false
  mode : String := "session"
  maxHistory : Nat := 10
  vectorStore : String := "chroma"
  deriving DecidableEq, Repr

/-- Availability of the optional vector-store dependencies at
initialization: `chromaOk` — importing `chromadb`, constructing the client
and `get_or_create_collection` all succeed; `stOk` — importing
`sentence_transformers` and loading the model both succeed. -/
structure Deps where
  chromaOk : Bool
  stOk : Bool
  deriving DecidableEq, Repr

/-- The state of a `MemoryHandler` instance after `__init__`: configuration
fields plus whether `self.collection` / `self.embeddings_model` were set. -/
structure MemoryHandler where
  enabled : Bool
  mode : String
  maxHistory : Nat
  vectorStore : String
  hasCollection : Bool
  hasEmbeddings : Bool
  deriving DecidableEq, Repr

/-- `MemoryHandler._initialize_vector_store`: returns the resulting `mode`
and whether `self.collection` / `self.embeddings_model` were set.  A failing
`chromadb` step is caught and flips the mode to `"session"`; a failing
`sentence_transformers` step likewise (the collection attribute stays set in
that case).  With a vector-store backend other than `"chroma"` the body does
nothing. -/
def initVectorStore (vectorStore : String) (deps : Deps) (mode : String) :
    String × Bool × Bool :=
  if vectorStore == "chroma" then
    if !deps.chromaOk then ("session", false, false)
    else if !deps.stOk then ("session", true, false)
    else (mode, true, true)
  else (mode, false, false)

/-- `MemoryHandler.__init__`: reads the configuration and, when memory is
enabled and the configured mode is `"vector"`, runs
`_initialize_vector_store`. -/
def mkMemoryHandler (cfg : MemConfig) (deps : Deps) : MemoryHandler :=
  if cfg.enabled && (cfg.mode == "vector") then
    let r := initVectorStore cfg.vectorStore deps cfg.mode
    { enabled := cfg.enabled, mode := r.1, maxHistory := cfg.maxHistory,
      vectorStore := cfg.vectorStore, hasCollection := r.2.1,
      hasEmbeddings := r.2.2 }
  else
    { enabled := cfg.enabled, mode := cfg.mode, maxHistory := cfg.maxHistory,
      vectorStore := cfg.vectorStore, hasCollection := false,
      hasEmbeddings := false }

/-- Python truthiness of an optional string: `None` and `""` are falsy. -/
def optTruthy : Option String → Bool
  | none => false
  | some s => s != ""

/-- `MemoryHandler.ensure_dir_exists`: `Path.mkdir(parents=True,
exist_ok=True)`, which raises on failure (it is not wrapped in a
`try`/`except`). -/
def ensureDirExists (env : Env) : Except PyErr Unit :=
  if env.mkdirOk then .ok () else .error (.osErr "mkdir failed")

/-- Appending one record to a session file opened with mode `"a"` (the file
is created when absent). -/
def fsAppend (fs : FS) (sid : String) (t : Turn) : FS :=
  fun s => if s = sid then some ((fs sid).getD [] ++ [t]) else fs s

/-- `MemoryHandler._save_to_session_file`: calls `ensure_dir_exists` (whose
failure propagates), then appends one JSON line inside a `try`/`except` that
swallows any write failure. -/
def saveToSessionFile (env : Env) (ts : String) (fs : FS)
    (sid model prompt response : String) : Except PyErr FS :=
  match ensureDirExists env with
  | .error e => .error e
  | .ok _ =>
    if env.writeOk then
      .ok (fsAppend fs sid (mkTurn ts model prompt response))
    else
      .ok fs

/-- `MemoryHandler._save_to_vector_store`: with no embedding model or no
collection it falls back to `_save_to_session_file`; otherwise it embeds and
adds a document, and any failure of that `try` block also falls back to
`_save_to_session_file`. -/
def saveToVectorStore (h : MemoryHandler) (env : Env) (ts : String)
    (st : Store) (sid model prompt response : String) : Except PyErr Store :=
  if !h.hasEmbeddings || !h.hasCollection then
    (saveToSessionFile env ts st.files sid model prompt response).map
      (fun fs => { st with files := fs })
  else if env.embedOk && env.indexOk then
    .ok { st with docs := st.docs ++
      [{ docId := sid ++ "_" ++ ts,
         text := "User: " ++ prompt ++ "\nAssistant: " ++ response,
         sessionId := sid, model := model, prompt := prompt,
         response := response, timestamp := ts }] }
  else
    (saveToSessionFile env ts st.files sid model prompt response).map
      (fun fs => { st with files := fs })

/-- `MemoryHandler.save_interaction`: returns immediately when memory is
disabled, otherwise dispatches on the mode flag. -/
def saveInteraction (h : MemoryHandler) (env : Env) (ts : String) (st : Store)
    (sid model prompt response : String) : Except PyErr Store :=
  if !h.enabled then .ok st
  else if h.mode = "vector" then
    saveToVectorStore h env ts st sid model prompt response
  else
    (saveToSessionFile env ts st.files sid model prompt response).map
      (fun fs => { st with files := fs })

/-- The Python slice `l[-k:]` for a non-negative `k`: the last `k` elements,
except that `l[-0:]` is `l[0:]`, i.e. the whole list. -/
def pySliceLast (l : List α) (k : Nat) : List α :=
  if k = 0 then l else l.drop (l.length - k)

/-- `MemoryHandler._load_from_session_file`: a missing file yields `[]`; a
failing read is caught and yields `[]`; otherwise the parsed records are
truncated with `interactions[-self.max_history:]`. -/
def loadFromSessionFile (h : MemoryHandler) (env : Env) (fs : FS)
    (sid : String) : List Turn :=
  match fs sid with
  | none => []
  | some recs => if env.readOk then pySliceLast recs h.maxHistory else []

/-- `MemoryHandler._load_from_vector_store`: without a collection it yields
`[]`; otherwise `collection.get` filters by session id with
`limit=self.max_history` (insertion order), reshaped into records and
truncated again with `[-self.max_history:]`; any failure is caught and
yields `[]`. -/
def loadFromVectorStore (h : MemoryHandler) (env : Env) (st : Store)
    (sid : String) : List Turn :=
  if !h.hasCollection then []
  else if env.readOk then
    let hits := (st.docs.filter (fun d => d.sessionId == sid)).take h.maxHistory
    pySliceLast
      (hits.map (fun d =>
        { timestamp := d.timestamp, role := "user", model := d.model,
          prompt := d.prompt, response := d.response }))
      h.maxHistory
  else []

/-- `MemoryHandler.load_context`: `[]` when memory is disabled, otherwise
dispatches on the mode flag. -/
def loadContext (h : MemoryHandler) (env : Env) (st : Store) (sid : String) :
    List Turn :=
  if !h.enabled then []
  else if h.mode = "vector" then loadFromVectorStore h env st sid
  else loadFromSessionFile h env st.files sid

/-- The two lines that `MemoryHandler.format_context_for_prompt` appends for
each interaction of the context. -/
def turnLines : List Turn → List String
  | [] => []
  | t :: ts =>
    ("User: " ++ t.prompt) :: ("Assistant: " ++ t.response) :: turnLines ts

/-- `"\n".join(parts)`. -/
def joinNl : List String → String
  | [] => ""
  | [s] => s
  | s :: rest => s ++ "\n" ++ joinNl rest

/-- `MemoryHandler.format_context_for_prompt`: `""` for an empty context,
otherwise the header line, two lines per interaction and a trailing empty
part, joined with newlines. -/
def formatContextForPrompt (context : List Turn) : String :=
  if context = [] then ""
  else joinNl ("Previous conversation:" :: (turnLines context ++ [""]))

/-- Clearing every session file: `Path.glob("*.jsonl")` and `unlink` on each
match (each unlink failure is caught; one flag models them jointly). -/
def clearAllFiles (env : Env) (fs : FS) : FS :=
  if env.unlinkOk then (fun _ => none) else fs

/-- The session-file part of `MemoryHandler.clear_memory`: a truthy session
id unlinks the file of that session when it exists (failure caught), a falsy one
clears every session file. -/
def clearSessionFiles (env : Env) (sid? : Option String) (fs : FS) : FS :=
  match sid? with
  | some sid =>
    if sid != "" then
      match fs sid with
      | none => fs
      | some _ =>
        if env.unlinkOk then (fun s => if s = sid then none else fs s) else fs
    else clearAllFiles env fs
  | none => clearAllFiles env fs

/-- `MemoryHandler.clear_memory`: returns immediately when disabled; in
vector mode with a collection it deletes by session-id filter (or the whole
collection) and returns, falling through to the session-file clearing when
that `try` block fails. -/
def clearMemory (h : MemoryHandler) (env : Env) (sid? : Option String)
    (st : Store) : Store :=
  if !h.enabled then st
  else if (h.mode == "vector") && h.hasCollection then
    if env.indexOk then
      if optTruthy sid? then
        { st with docs := st.docs.filter (fun d => d.sessionId != sid?.getD "") }
      else
        { st with docs := [] }
    else { st with files := clearSessionFiles env sid? st.files }
  else { st with files := clearSessionFiles env sid? st.files }

/-- One backend invocation recorded by the router (the argument is the full
prompt sent to the backend). -/
inductive BackendCall where
  | openai (fullPrompt : String)
  | ollama (fullPrompt : String)
  deriving DecidableEq, Repr

/-- The configuration slice read by `route_prompt`: the `active_model`
selector and the optional per-backend model names. -/
structure RouterConfig where
  activeModel : String := "openai"
  openaiModel : Option String := none
  localModelName : Option String := none
  deriving DecidableEq, Repr

/-- The context prepending in `route_prompt`: `if context:` uses Python
truthiness, so an empty context string leaves the prompt unchanged. -/
def buildFullPrompt (prompt : String) (context : Option String) : String :=
  match context with
  | some c =>
    if c != "" then c ++ "\n\nCurrent request: " ++ prompt else prompt
  | none => prompt

/-- `route_prompt` (`src/routers/router_manager.py`): selects the backend by
`active_model`, returning the response/model pair or raising `ValueError`
for an unknown selector.  The second component records the backend calls
made, in order. -/
def routePrompt (cfg : RouterConfig) (queryOpenai queryOllama : String → String)
    (prompt : String) (context : Option String) :
    Except PyErr (String × String) × List BackendCall :=
  let fullPrompt := buildFullPrompt prompt context
  if cfg.activeModel = "openai" then
    (.ok (queryOpenai fullPrompt, cfg.openaiModel.getD "gpt-4-turbo"),
      [BackendCall.openai fullPrompt])
  else if cfg.activeModel = "local" then
    (.ok (queryOllama fullPrompt, cfg.localModelName.getD "llama2"),
      [BackendCall.ollama fullPrompt])
  else
    (.error (.valueErr ("Invalid model " ++ cfg.activeModel ++
      " specified in config file. Valid options are: openai or local")), [])

/-- The context computed at the top of `process_prompt` (`src/main.py`):
present exactly when a memory handler is enabled, the session id is truthy
and the loaded context is non-empty. -/
def contextFor (h : MemoryHandler) (env : Env) (st : Store)
    (sessionId : Option String) : Option String :=
  if h.enabled && optTruthy sessionId then
    let items := loadContext h env st (sessionId.getD "")
    if items.isEmpty then none else some (formatContextForPrompt items)
  else none

/-- Result of one `process_prompt` call: the returned (or raised) value, the
persistent state afterwards, and the backend calls made. -/
structure DispatchResult where
  result : Except PyErr (String × String)
  store : Store
  calls : List BackendCall

/-- `process_prompt` (`src/main.py`): loads and formats context, routes the
prompt, then saves the produced turn when memory is enabled and a truthy
session id is present.  An exception from routing or saving propagates. -/
def processPrompt (h : MemoryHandler) (cfg : RouterConfig)
    (queryOpenai queryOllama : String → String) (env : Env) (ts : String)
    (st : Store) (prompt : String) (sessionId : Option String) :
    DispatchResult :=
  let context := contextFor h env st sessionId
  let routed := routePrompt cfg queryOpenai queryOllama prompt context
  match routed.1 with
  | .error e => { result := .error e, store := st, calls := routed.2 }
  | .ok (response, modelName) =>
    if h.enabled && optTruthy sessionId then
      match saveInteraction h env ts st (sessionId.getD "") modelName prompt
          response with
      | .ok st' =>
        { result := .ok (response, modelName), store := st', calls := routed.2 }
      | .error e => { result := .error e, store := st, calls := routed.2 }
    else { result := .ok (response, modelName), store := st, calls := routed.2 }

/-- The session-id resolution in `main` (`src/main.py`, lines 244–255): a
falsy `--session-id` becomes `None`, and when memory is enabled and the id
is still falsy it is replaced by `"default"`. -/
def mainSessionId (enabled : Bool) (argSessionId : Option String) :
    Option String :=
  let sessionId := if optTruthy argSessionId then argSessionId else none
  if enabled && !(optTruthy sessionId) then some "default" else sessionId

/-- One memory-layer operation, for stating trace invariants.  The store
after an operation whose exception propagates is the store at the raise
point (the mode flag is untouched either way). -/
inductive MemOp where
  | save (env : Env) (ts sid model prompt response : String)
  | load (env : Env) (sid : String)
  | clear (env : Env) (sid? : Option String)

/-- Effect of one memory operation on the persistent store. -/
def stepStore (h : MemoryHandler) (st : Store) : MemOp → Store
  | .save env ts sid model prompt response =>
    match saveInteraction h env ts st sid model prompt response with
    | .ok st' => st'
    | .error _ => st
  | .load _ _ => st
  | .clear env sid? => clearMemory h env sid? st

/-- Effect of one memory operation on the whole process state: the handler
object is never reassigned by `save_interaction`, `load_context` or
`clear_memory` (in particular `self.mode` is written only inside
`_initialize_vector_store`, which only `__init__` calls). -/
def stepProc (s : MemoryHandler × Store) (op : MemOp) : MemoryHandler × Store :=
  (s.1, stepStore s.1 s.2 op)

/-- An appended entry for round-trip statements: the inputs of one
`save_interaction` call (the timestamp taken at write time, the model, the
prompt and the response). -/
structure Entry where
  ts : String
  model : String
  prompt : String
  response : String
  deriving DecidableEq, Repr

/-- The JSONL record that saving an `Entry` writes. -/
def entryTurn (e : Entry) : Turn := mkTurn e.ts e.model e.prompt e.response

/-- A sequence of `save_interaction` calls to the same session, stopping at
the first propagated exception. -/
def runSaves (h : MemoryHandler) (env : Env) (sid : String) (st : Store) :
    List Entry → Except PyErr Store
  | [] => .ok st
  | e :: es =>
    match saveInteraction h env e.ts st sid e.model e.prompt e.response with
    | .ok st' => runSaves h env sid st' es
    | .error err => .error err

/-- The per-turn transcript body used to state the shape of
`format_context_for_prompt`: one `User:`/`Assistant:` pair per turn, in
order, ending with the blank separator line. -/
def pairsStr (ctx : List Turn) : String :=
  ctx.foldr
    (fun t acc =>
      "\n" ++ ("User: " ++ t.prompt) ++ "\n" ++ ("Assistant: " ++ t.response)
        ++ acc)
    "\n"

/-- The empty store: no session files, empty collection. -/
def emptyStore : Store := { files := fun _ => none, docs := [] }

/-- An environment where every external call succeeds. -/
def envAllOk : Env :=
  { mkdirOk := true, writeOk := true, readOk := true, embedOk := true,
    indexOk := true, unlinkOk := true }

/-- Witness fixtures: an enabled session-mode handler with the default
window. -/
def hSessionOn : MemoryHandler :=
  { enabled := true, mode := "session", maxHistory := 10,
    vectorStore := "chroma", hasCollection := false, hasEmbeddings := false }

/-- Witness fixture: a disabled handler. -/
def hDisabled : MemoryHandler :=
  { enabled := false, mode := "session", maxHistory := 10,
    vectorStore := "chroma", hasCollection := false, hasEmbeddings := false }

/-- Witness fixture: enabled session-mode handler with a window of one. -/
def hWindowOne : MemoryHandler :=
  { enabled := true, mode := "session", maxHistory := 1,
    vectorStore := "chroma", hasCollection := false, hasEmbeddings := false }

/-- Counterexample fixture: enabled session-mode handler with
`max_history = 0`. -/
def hWindowZero : MemoryHandler :=
  { enabled := true, mode := "session", maxHistory := 0,
    vectorStore := "chroma", hasCollection := false, hasEmbeddings := false }

/-- Witness fixture: an enabled vector-mode handler whose configured
vector-store backend is not `"chroma"`, so no collection and no embedding
model were set. -/
def hVectorBare : MemoryHandler :=
  { enabled := true, mode := "vector", maxHistory := 5,
    vectorStore := "faiss", hasCollection := false, hasEmbeddings := false }

/-- Environment in which `Path.mkdir` fails. -/
def envNoMkdir : Env := { envAllOk with mkdirOk := false }

/-- Environment in which the session-file write fails. -/
def envNoWrite : Env := { envAllOk with writeOk := false }

/-- Two sample append calls. -/
def entry1 : Entry := { ts := "t1", model := "m", prompt := "p1", response := "r1" }

/-- Second sample append call. -/
def entry2 : Entry := { ts := "t2", model := "m", prompt := "p2", response := "r2" }

/-- A sample stored record. -/
def turnA : Turn :=
  { timestamp := "t", role := "user", model := "m", prompt := "p",
    response := "r" }

/-- Counterexample fixture: a store holding one record for session `"a"` and
nothing for any other session. -/
def stTwo : Store :=
  { files := fun s => if s = "a" then some [turnA] else none, docs := [] }

/-- Witness fixture: the store after two appends to session `"s"` under a
window of one. -/
def stC1 : Store :=
  match runSaves hWindowOne envAllOk "s" emptyStore [entry1, entry2] with
  | .ok st => st
  | .error _ => emptyStore

/-- `l[-k:]` of an empty list is empty for every `k`. -/
theorem pySliceLast_nil (k : Nat) : pySliceLast ([] : List α) k = [] := by
  unfold pySliceLast; split <;> simp

/-- For a positive bound, `l[-k:]` has `min (length l) k` elements. -/
theorem pySliceLast_length (l : List α) (k : Nat) (hk : k ≠ 0) :
    (pySliceLast l k).length = min l.length k := by
  simp only [pySliceLast, hk, if_false, List.length_drop]
  omega

/-- For a positive bound, `l[-k:]` is the suffix from index `length l - k`. -/
theorem pySliceLast_eq_drop (l : List α) (k : Nat) (hk : k ≠ 0) :
    pySliceLast l k = l.drop (l.length - k) := by
  simp [pySliceLast, hk]

/-- For a positive bound, the last element of `(l ++ [a])[-k:]` is `a`. -/
theorem pySliceLast_concat_getLast? (l : List α) (a : α) (k : Nat)
    (hk : k ≠ 0) : (pySliceLast (l ++ [a]) k).getLast? = some a := by
  rw [pySliceLast_eq_drop _ _ hk]
  have hn : (l ++ [a]).length - k ≤ l.length := by
    simp only [List.length_append, List.length_cons, List.length_nil]
    omega
  rw [List.drop_append_of_le_length hn, List.getLast?_concat]

/-- A session-mode save with a working directory and a working write appends
exactly one record to the file of that session. -/
theorem saveInteraction_session_ok (h : MemoryHandler) (env : Env)
    (ts : String) (st : Store) (sid model prompt response : String)
    (hen : h.enabled = true) (hmode : ¬ h.mode = "vector")
    (hmk : env.mkdirOk = true) (hw : env.writeOk = true) :
    saveInteraction h env ts st sid model prompt response =
      .ok { st with
        files := fsAppend st.files sid (mkTurn ts model prompt response) } := by
  simp [saveInteraction, saveToSessionFile, ensureDirExists, hen, hmode, hmk,
    hw, Except.map]

/-- Accumulation of consecutive session-mode saves to one session. -/
theorem runSaves_ok (h : MemoryHandler) (env : Env) (sid : String)
    (hen : h.enabled = true) (hmode : ¬ h.mode = "vector")
    (hmk : env.mkdirOk = true) (hw : env.writeOk = true) :
    ∀ (es : List Entry) (st : Store) (l : List Turn),
      st.files sid = some l →
      ∃ st', runSaves h env sid st es = .ok st'
        ∧ st'.files sid = some (l ++ es.map entryTurn)
        ∧ st'.docs = st.docs := by
  intro es
  induction es with
  | nil => exact fun st l hl => ⟨st, rfl, by simp [hl], rfl⟩
  | cons e es ih =>
    intro st l hl
    have hsave := saveInteraction_session_ok h env e.ts st sid e.model
      e.prompt e.response hen hmode hmk hw
    have hst1 : ({ st with files := fsAppend st.files sid (entryTurn e) } :
        Store).files sid = some (l ++ [entryTurn e]) := by
      simp [fsAppend, hl]
    obtain ⟨st', hrun, hfiles, hdocs⟩ :=
      ih { st with files := fsAppend st.files sid (entryTurn e) }
        (l ++ [entryTurn e]) hst1
    refine ⟨st', ?_, ?_, hdocs⟩
    · simp only [runSaves, hsave, entryTurn]
      exact hrun
    · simpa [List.append_assoc] using hfiles

/-- The handler component of the process state is invariant under every
memory operation. -/
theorem foldl_stepProc_fst :
    ∀ (ops : List MemOp) (h : MemoryHandler) (st : Store),
      (ops.foldl stepProc (h, st)).1 = h := by
  intro ops
  induction ops with
  | nil => intro h st; rfl
  | cons op ops ih => intro h st; exact ih h (stepStore h st op)

/-- C3: the memory mode flag admits only the transition vector→session,
triggered by an initialization / missing-dependency failure of the chroma
vector store; after initialization no memory operation changes the handler
(in particular the mode), so a downgrade to session mode is permanent and
vector initialization is never retried. -/
theorem c3_mode_one_way (cfg : MemConfig) (deps : Deps) (ops : List MemOp)
    (st : Store) :
    (ops.foldl stepProc (mkMemoryHandler cfg deps, st)).1
      = mkMemoryHandler cfg deps
    ∧ (mkMemoryHandler cfg deps).mode =
        (if cfg.enabled && (cfg.mode == "vector") && (cfg.vectorStore == "chroma")
            && !(deps.chromaOk && deps.stOk)
         then "session" else cfg.mode) := by
  refine ⟨foldl_stepProc_fst ops _ st, ?_⟩
  rcases deps with ⟨co, so⟩
  rcases cfg with ⟨en, mo, mh, vs⟩
  cases en <;> cases co <;> cases so <;>
    by_cases hm : mo = "vector" <;> by_cases hv : vs = "chroma" <;>
    simp [mkMemoryHandler, initVectorStore, hm, hv]

/-- C5: `route_prompt` raises `ValueError` and makes no backend call for any
selector other than `"openai"` and `"local"`; for each of the two valid
selectors exactly the corresponding backend client is invoked, on the full
prompt. -/
theorem c5_backend_selector (cfg : RouterConfig)
    (queryOpenai queryOllama : String → String) (prompt : String)
    (context : Option String) :
    (¬ cfg.activeModel = "openai" → ¬ cfg.activeModel = "local" →
      (∃ msg, (routePrompt cfg queryOpenai queryOllama prompt context).1
          = .error (.valueErr msg))
        ∧ (routePrompt cfg queryOpenai queryOllama prompt context).2 = [])
    ∧ (cfg.activeModel = "openai" →
      routePrompt cfg queryOpenai queryOllama prompt context =
        (.ok (queryOpenai (buildFullPrompt prompt context),
              cfg.openaiModel.getD "gpt-4-turbo"),
         [BackendCall.openai (buildFullPrompt prompt context)]))
    ∧ (cfg.activeModel = "local" →
      routePrompt cfg queryOpenai queryOllama prompt context =
        (.ok (queryOllama (buildFullPrompt prompt context),
              cfg.localModelName.getD "llama2"),
         [BackendCall.ollama (buildFullPrompt prompt context)])) := by
  refine ⟨fun h1 h2 => ?_, fun h1 => ?_, fun h1 => ?_⟩
  · refine ⟨⟨"Invalid model " ++ cfg.activeModel ++
      " specified in config file. Valid options are: openai or local", ?_⟩, ?_⟩ <;>
      simp [routePrompt, h1, h2]
  · simp [routePrompt, h1]
  · have h2 : ¬ cfg.activeModel = "openai" := by simp [h1]
    simp [routePrompt, h1, h2]

/-- C7: with the session-file read path, a missing or empty session log
yields the empty context, in every environment (read failures are caught),
so no error is raised. -/
theorem c7_missing_session_empty (h : MemoryHandler) (env : Env) (st : Store)
    (sid : String) (hmode : ¬ h.mode = "vector")
    (hempty : st.files sid = none ∨ st.files sid = some []) :
    loadContext h env st sid = [] := by
  cases hen : h.enabled with
  | false => simp [loadContext, hen]
  | true =>
    rcases hempty with hf | hf <;>
      simp [loadContext, loadFromSessionFile, hen, hmode, hf, pySliceLast_nil]

/-- C7 witness: a fresh store and an empty log both yield `[]`. -/
theorem c7_witness :
    loadContext hSessionOn envAllOk emptyStore "s" = [] :=
  c7_missing_session_empty hSessionOn envAllOk emptyStore "s" (by decide)
    (Or.inl rfl)

/-- C9: with the master switch off, `save_interaction` returns without
touching the store, `load_context` returns the empty sequence whatever is on
disk, and `clear_memory` leaves the store unchanged. -/
theorem c9_disabled_inert (h : MemoryHandler) (hdis : h.enabled = false) :
    (∀ env ts st sid model prompt response,
        saveInteraction h env ts st sid model prompt response = .ok st)
    ∧ (∀ env st sid, loadContext h env st sid = [])
    ∧ (∀ env sid? st, clearMemory h env sid? st = st) := by
  refine ⟨fun env ts st sid model prompt response => ?_,
    fun env st sid => ?_, fun env sid? st => ?_⟩ <;>
    simp [saveInteraction, loadContext, clearMemory, hdis]

/-- C9 witness: the disabled handler is inert on a concrete store. -/
theorem c9_witness :
    saveInteraction hDisabled envAllOk "t" stTwo "a" "m" "p" "r" = .ok stTwo
    ∧ loadContext hDisabled envAllOk stTwo "a" = []
    ∧ clearMemory hDisabled envAllOk (some "a") stTwo = stTwo :=
  ⟨(c9_disabled_inert hDisabled rfl).1 envAllOk "t" stTwo "a" "m" "p" "r",
   (c9_disabled_inert hDisabled rfl).2.1 envAllOk stTwo "a",
   (c9_disabled_inert hDisabled rfl).2.2 envAllOk (some "a") stTwo⟩

/-- Router fixture with an invalid selector. -/
def cfgBogus : RouterConfig := { activeModel := "bogus" }

/-- Router fixture selecting the hosted backend. -/
def cfgOpenAI : RouterConfig := { activeModel := "openai" }

/-- Router fixture selecting the local backend. -/
def cfgLocal : RouterConfig := { activeModel := "local" }

/-- C5 witness: the three selector cases at concrete inputs. -/
theorem c5_witness :
    ((∃ msg, (routePrompt cfgBogus (fun s => s) (fun s => s) "hi" none).1
        = .error (.valueErr msg))
      ∧ (routePrompt cfgBogus (fun s => s) (fun s => s) "hi" none).2 = [])
    ∧ routePrompt cfgOpenAI (fun s => s) (fun s => s) "hi" none
        = (.ok ("hi", "gpt-4-turbo"), [BackendCall.openai "hi"])
    ∧ routePrompt cfgLocal (fun s => s) (fun s => s) "hi" none
        = (.ok ("hi", "llama2"), [BackendCall.ollama "hi"]) :=
  ⟨(c5_backend_selector cfgBogus (fun s => s) (fun s => s) "hi" none).1
      (by decide) (by decide),
   (c5_backend_selector cfgOpenAI (fun s => s) (fun s => s) "hi" none).2.1 rfl,
   (c5_backend_selector cfgLocal (fun s => s) (fun s => s) "hi" none).2.2 rfl⟩

/-- C2 counterexample: in session mode with memory enabled, a failure of the
storage-directory creation step (`ensure_dir_exists`, which
`_save_to_session_file` calls outside its `try` block) propagates an
exception out of `save_interaction` into the dispatch path, contradicting
the claim that an I/O error never propagates out of the memory layer. -/
theorem c2_counterexample :
    saveInteraction hSessionOn envNoMkdir "t0" emptyStore "s" "m" "p" "r"
      = .error (.osErr "mkdir failed") := rfl

/-- `_save_to_session_file` returns normally whenever the directory-creation
step succeeds, in every mode reached through `save_interaction`. -/
theorem saveToSessionFile_isOk (env : Env) (ts : String) (fs : FS)
    (sid model prompt response : String) (hmk : env.mkdirOk = true) :
    ∃ fs', saveToSessionFile env ts fs sid model prompt response = .ok fs' := by
  cases hw : env.writeOk
  · exact ⟨fs, by simp [saveToSessionFile, ensureDirExists, hmk, hw]⟩
  · exact ⟨fsAppend fs sid (mkTurn ts model prompt response),
      by simp [saveToSessionFile, ensureDirExists, hmk, hw]⟩

/-- C2 (amended): provided the storage-directory creation step succeeds,
`save_interaction` never propagates an exception; and in session mode a
failing file write is logged and swallowed — the call returns normally and
the store is unchanged (the turn is not persisted). -/
theorem c2_write_error_swallowed (h : MemoryHandler) (env : Env) (ts : String)
    (st : Store) (sid model prompt response : String)
    (hmk : env.mkdirOk = true) :
    (∃ st', saveInteraction h env ts st sid model prompt response = .ok st')
    ∧ (h.enabled = true → ¬ h.mode = "vector" → env.writeOk = false →
        saveInteraction h env ts st sid model prompt response = .ok st) := by
  constructor
  · by_cases hen : h.enabled = true
    · by_cases hm : h.mode = "vector"
      · simp only [saveInteraction, hen, hm, Bool.not_true, Bool.false_eq_true,
          if_false, if_true, saveToVectorStore]
        split
        · obtain ⟨fs', hfs⟩ :=
            saveToSessionFile_isOk env ts st.files sid model prompt response hmk
          exact ⟨_, by rw [hfs]; rfl⟩
        · split
          · exact ⟨_, rfl⟩
          · obtain ⟨fs', hfs⟩ :=
              saveToSessionFile_isOk env ts st.files sid model prompt response hmk
            exact ⟨_, by rw [hfs]; rfl⟩
      · obtain ⟨fs', hfs⟩ :=
          saveToSessionFile_isOk env ts st.files sid model prompt response hmk
        exact ⟨_, by simp only [saveInteraction, hen, hm, Bool.not_true,
          Bool.false_eq_true, if_false, if_true, hfs]; rfl⟩
    · have hen' : h.enabled = false := by
        cases hq : h.enabled
        · rfl
        · exact absurd hq hen
      exact ⟨st, by simp [saveInteraction, hen']⟩
  · intro hen hm hw
    simp only [saveInteraction, saveToSessionFile, ensureDirExists, hen, hm,
      hmk, hw, Bool.not_true, Bool.false_eq_true, if_false, if_true]
    rfl

/-- C2 witness: with a working directory and a failing write, the save call
returns normally and leaves the store unchanged. -/
theorem c2_witness :
    (∃ st', saveInteraction hSessionOn envNoWrite "t" emptyStore "s" "m" "p" "r"
        = .ok st')
    ∧ saveInteraction hSessionOn envNoWrite "t" emptyStore "s" "m" "p" "r"
        = .ok emptyStore :=
  ⟨(c2_write_error_swallowed hSessionOn envNoWrite "t" emptyStore
      "s" "m" "p" "r" rfl).1,
   (c2_write_error_swallowed hSessionOn envNoWrite "t" emptyStore
      "s" "m" "p" "r" rfl).2 rfl (by decide) rfl⟩

/-- C6 counterexample: because `clear_memory` tests the session id with
Python truthiness, `clear_memory("")` is handled like `clear_memory(None)`:
clearing the absent session `""` is not a no-op — it deletes the log of the
unrelated session `"a"`. -/
theorem c6_counterexample :
    stTwo.files "" = none
    ∧ stTwo.files "a" = some [turnA]
    ∧ (clearMemory hSessionOn envAllOk (some "") stTwo).files "a" = none :=
  ⟨rfl, rfl, rfl⟩

/-- C6 (amended): in session mode, for a non-empty session id, clearing an
absent session is a no-op, `clear_memory` is idempotent, a cleared session
reads back empty, and `clear_memory` with no session id removes every
log of that session (`clear_memory("")` behaves like clearing all sessions). -/
theorem c6_clear_idempotent (h : MemoryHandler) (env : Env) (st : Store)
    (sid : String) (hen : h.enabled = true) (hmode : ¬ h.mode = "vector")
    (hul : env.unlinkOk = true) :
    (¬ sid = "" → st.files sid = none →
      clearMemory h env (some sid) st = st)
    ∧ clearMemory h env (some sid) (clearMemory h env (some sid) st)
        = clearMemory h env (some sid) st
    ∧ loadContext h env (clearMemory h env (some sid) st) sid = []
    ∧ (clearMemory h env none st).files = fun _ => none := by
  have hmb : (h.mode == "vector") = false := by simp [hmode]
  have hcm : ∀ (sid? : Option String) (st' : Store),
      clearMemory h env sid? st'
        = { st' with files := clearSessionFiles env sid? st'.files } := by
    intro sid? st'
    simp [clearMemory, hen, hmb]
  refine ⟨fun hsid hf => ?_, ?_, ?_, ?_⟩
  · simp only [hcm]
    have : clearSessionFiles env (some sid) st.files = st.files := by
      simp [clearSessionFiles, hsid, hf]
    rw [this]
  · by_cases hsid : sid = ""
    · subst hsid
      simp only [hcm]
      simp [clearSessionFiles, clearAllFiles, hul]
    · simp only [hcm]
      cases hf : st.files sid with
      | none =>
        simp only [clearSessionFiles, bne_iff_ne, ne_eq, hsid,
          not_false_eq_true, if_true, hf]
      | some l =>
        simp only [clearSessionFiles, bne_iff_ne, ne_eq, hsid,
          not_false_eq_true, if_true, hf, hul]
  · by_cases hsid : sid = ""
    · subst hsid
      rw [hcm]
      simp [loadContext, loadFromSessionFile, hen, hmode, clearSessionFiles,
        clearAllFiles, hul]
    · rw [hcm]
      cases hf : st.files sid with
      | none =>
        simp [loadContext, loadFromSessionFile, hen, hmode, clearSessionFiles,
          hsid, hf]
      | some l =>
        simp [loadContext, loadFromSessionFile, hen, hmode, clearSessionFiles,
          hsid, hf, hul]
  · rw [hcm]
    simp [clearSessionFiles, clearAllFiles, hul]

/-- C6 witness: the amended properties at concrete inputs. -/
theorem c6_witness :
    clearMemory hSessionOn envAllOk (some "b") stTwo = stTwo
    ∧ clearMemory hSessionOn envAllOk (some "b")
        (clearMemory hSessionOn envAllOk (some "b") stTwo)
      = clearMemory hSessionOn envAllOk (some "b") stTwo
    ∧ loadContext hSessionOn envAllOk
        (clearMemory hSessionOn envAllOk (some "b") stTwo) "b" = []
    ∧ (clearMemory hSessionOn envAllOk none stTwo).files = fun _ => none :=
  ⟨(c6_clear_idempotent hSessionOn envAllOk stTwo "b" rfl (by decide) rfl).1
     (by decide) rfl,
   (c6_clear_idempotent hSessionOn envAllOk stTwo "b" rfl (by decide) rfl).2.1,
   (c6_clear_idempotent hSessionOn envAllOk stTwo "b" rfl (by decide) rfl).2.2.1,
   (c6_clear_idempotent hSessionOn envAllOk stTwo "b" rfl (by decide) rfl).2.2.2⟩

/-- C4: in vector mode, when the embedding model or collection is absent, or
the embedding / index step of one append fails, `save_interaction` falls
through to the session-file append for that call: the turn is appended to
the log of the session, the collection is untouched, and the turn is the last
record returned by the session-mode read path. -/
theorem c4_vector_fallback (h : MemoryHandler) (env : Env) (ts : String)
    (st : Store) (sid model prompt response : String)
    (hen : h.enabled = true) (hmode : h.mode = "vector")
    (hfail : h.hasEmbeddings = false ∨ h.hasCollection = false
      ∨ env.embedOk = false ∨ env.indexOk = false)
    (hmk : env.mkdirOk = true) (hw : env.writeOk = true)
    (hr : env.readOk = true) (hmax : 1 ≤ h.maxHistory) :
    ∃ st', saveInteraction h env ts st sid model prompt response = .ok st'
      ∧ st'.files sid = some ((st.files sid).getD []
          ++ [mkTurn ts model prompt response])
      ∧ st'.docs = st.docs
      ∧ (loadFromSessionFile h env st'.files sid).getLast?
          = some (mkTurn ts model prompt response) := by
  have hk : h.maxHistory ≠ 0 := by omega
  have hfb : saveInteraction h env ts st sid model prompt response
      = .ok { st with
          files := fsAppend st.files sid (mkTurn ts model prompt response) } := by
    simp only [saveInteraction, hen, hmode, Bool.not_true, Bool.false_eq_true,
      if_false, if_true]
    by_cases hcond : (!h.hasEmbeddings || !h.hasCollection) = true
    · simp only [saveToVectorStore, hcond, if_true, saveToSessionFile,
        ensureDirExists, hmk, hw]
      rfl
    · have hee : (env.embedOk && env.indexOk) = false := by
        rcases hfail with hfe | hfe | hfe | hfe
        · exact absurd (by simp [hfe]) hcond
        · exact absurd (by simp [hfe]) hcond
        · simp [hfe]
        · simp [hfe]
      simp only [saveToVectorStore, hcond, if_false, hee, Bool.false_eq_true]
      simp only [saveToSessionFile, ensureDirExists, hmk, hw, if_true]
      rfl
  refine ⟨_, hfb, ?_, rfl, ?_⟩
  · simp [fsAppend]
  · have hload : loadFromSessionFile h env
        (fsAppend st.files sid (mkTurn ts model prompt response)) sid
        = pySliceLast ((st.files sid).getD []
            ++ [mkTurn ts model prompt response]) h.maxHistory := by
      simp [loadFromSessionFile, fsAppend, hr]
    rw [hload, pySliceLast_concat_getLast? _ _ _ hk]

/-- C4 witness: a vector-mode handler with no embedding model falls back to
the session file on a concrete append. -/
theorem c4_witness :
    ∃ st', saveInteraction hVectorBare envAllOk "t" emptyStore "s" "m" "p" "r"
        = .ok st'
      ∧ st'.files "s" = some ((emptyStore.files "s").getD []
          ++ [mkTurn "t" "m" "p" "r"])
      ∧ st'.docs = emptyStore.docs
      ∧ (loadFromSessionFile hVectorBare envAllOk st'.files "s").getLast?
          = some (mkTurn "t" "m" "p" "r") :=
  c4_vector_fallback hVectorBare envAllOk "t" emptyStore "s" "m" "p" "r"
    rfl rfl (Or.inl rfl) rfl rfl rfl (by decide)

/-- C1 counterexample: with `max_history = 0` the Python slice
`interactions[-0:]` is `interactions[0:]`, so after two appends
`load_context` returns both turns instead of `min(2, 0) = 0` turns. -/
theorem c1_counterexample :
    (match runSaves hWindowZero envAllOk "s" emptyStore [entry1, entry2] with
      | .ok st => (loadContext hWindowZero envAllOk st "s").length
      | .error _ => 0) = 2
    ∧ min 2 hWindowZero.maxHistory = 0 := ⟨rfl, rfl⟩

/-- C1 (amended): in session mode with memory enabled and `max_history ≥ 1`,
after `N` appends to a fresh session `S`, `load_context(S)` returns exactly
`min(N, max_history)` turns — the last ones, in original write order, each
with the original model, prompt and response fields unchanged (with
`max_history = 0` the slice `[-0:]` instead returns all `N` turns). -/
theorem c1_session_round_trip (h : MemoryHandler) (env : Env) (sid : String)
    (es : List Entry) (st st' : Store)
    (hen : h.enabled = true) (hmode : ¬ h.mode = "vector")
    (hmk : env.mkdirOk = true) (hw : env.writeOk = true)
    (hr : env.readOk = true) (hmax : 1 ≤ h.maxHistory)
    (hfresh : st.files sid = none)
    (hrun : runSaves h env sid st es = .ok st') :
    loadContext h env st' sid
      = (es.map entryTurn).drop (es.length - h.maxHistory)
    ∧ (loadContext h env st' sid).length = min es.length h.maxHistory := by
  have hk : h.maxHistory ≠ 0 := by omega
  cases es with
  | nil =>
    have hst : st = st' := by
      simpa [runSaves] using hrun
    subst hst
    simp [loadContext, loadFromSessionFile, hen, hmode, hfresh]
  | cons e es =>
    have hsave := saveInteraction_session_ok h env e.ts st sid e.model
      e.prompt e.response hen hmode hmk hw
    rw [show runSaves h env sid st (e :: es)
        = runSaves h env sid
            { st with files := fsAppend st.files sid (entryTurn e) } es by
      simp only [runSaves, hsave, entryTurn]] at hrun
    have hst1 : ({ st with files := fsAppend st.files sid (entryTurn e) } :
        Store).files sid = some ([] ++ [entryTurn e]) := by
      simp [fsAppend, hfresh]
    obtain ⟨st'', hrun2, hfiles, hdocs⟩ :=
      runSaves_ok h env sid hen hmode hmk hw es _ _ hst1
    rw [hrun2] at hrun
    have hst'' : st'' = st' := by
      simpa using hrun
    subst hst''
    have hfl : st''.files sid = some ((e :: es).map entryTurn) := by
      simpa using hfiles
    have hload : loadContext h env st'' sid
        = pySliceLast ((e :: es).map entryTurn) h.maxHistory := by
      simp [loadContext, loadFromSessionFile, hen, hmode, hfl, hr]
    constructor
    · rw [hload, pySliceLast_eq_drop _ _ hk, List.length_map]
    · rw [hload, pySliceLast_length _ _ hk, List.length_map]

/-- C1 witness: two appends under a window of one; the read returns exactly
the most recent turn. -/
theorem c1_witness :
    loadContext hWindowOne envAllOk stC1 "s"
      = ([entry1, entry2].map entryTurn).drop
          ([entry1, entry2].length - hWindowOne.maxHistory)
    ∧ (loadContext hWindowOne envAllOk stC1 "s").length
        = min [entry1, entry2].length hWindowOne.maxHistory :=
  c1_session_round_trip hWindowOne envAllOk "s" [entry1, entry2] emptyStore
    stC1 rfl (by decide) rfl rfl rfl (by decide) rfl rfl

/-- Joining a list with a non-empty tail emits the head followed by a
newline. -/
theorem joinNl_cons (a : String) (l : List String) (hl : l ≠ []) :
    joinNl (a :: l) = a ++ "\n" ++ joinNl l := by
  cases l with
  | nil => exact absurd rfl hl
  | cons b m => rfl

/-- Closed form of the joined transcript body: one `User:`/`Assistant:` line
pair per turn, in order. -/
theorem joinNl_turnLines (ts : List Turn) :
    joinNl (turnLines ts ++ [""]) =
      ts.foldr (fun t acc => ("User: " ++ t.prompt) ++ ("\n" ++
        (("Assistant: " ++ t.response) ++ ("\n" ++ acc)))) "" := by
  induction ts with
  | nil => simp [turnLines, joinNl]
  | cons t ts ih =>
    have h1 : turnLines (t :: ts) ++ [""]
        = ("User: " ++ t.prompt) :: (("Assistant: " ++ t.response) ::
            (turnLines ts ++ [""])) := by
      simp [turnLines]
    rw [h1, joinNl_cons _ _ (by simp), joinNl_cons _ _ (by simp), ih]
    simp [String.append_assoc]

/-- `pairsStr` in right-nested form. -/
theorem pairsStr_eq (ctx : List Turn) :
    pairsStr ctx = "\n" ++ ctx.foldr (fun t acc => ("User: " ++ t.prompt) ++
      ("\n" ++ (("Assistant: " ++ t.response) ++ ("\n" ++ acc)))) "" := by
  induction ctx with
  | nil => simp [pairsStr, String.append_empty]
  | cons t ts ih =>
    simp only [pairsStr, List.foldr_cons] at ih ⊢
    rw [ih]
    simp [String.append_assoc]

/-- The formatted context of a non-empty context list is the header followed
by the per-turn pairs. -/
theorem formatContext_shape (ctx : List Turn) (hne : ctx ≠ []) :
    formatContextForPrompt ctx = "Previous conversation:" ++ pairsStr ctx := by
  cases ctx with
  | nil => exact absurd rfl hne
  | cons t ts =>
    rw [formatContextForPrompt, if_neg (by simp)]
    rw [joinNl_cons _ _ (by simp [turnLines]), joinNl_turnLines, pairsStr_eq]
    rw [String.append_assoc]

/-- The formatted context of a non-empty context list is itself non-empty. -/
theorem formatContext_ne_empty (ctx : List Turn) (hne : ctx ≠ []) :
    ¬ formatContextForPrompt ctx = "" := by
  intro h
  rw [formatContext_shape ctx hne] at h
  have hlen := congrArg String.length h
  rw [String.length_append] at hlen
  have h22 : ("Previous conversation:").length = 22 := rfl
  simp [h22] at hlen

/-- The backend calls of `process_prompt` are those of the inner
`route_prompt` call on the computed context. -/
theorem processPrompt_calls (h : MemoryHandler) (cfg : RouterConfig)
    (queryOpenai queryOllama : String → String) (env : Env) (ts : String)
    (st : Store) (prompt : String) (sessionId : Option String) :
    (processPrompt h cfg queryOpenai queryOllama env ts st prompt
        sessionId).calls =
      (routePrompt cfg queryOpenai queryOllama prompt
        (contextFor h env st sessionId)).2 := by
  unfold processPrompt
  cases hr : (routePrompt cfg queryOpenai queryOllama prompt
      (contextFor h env st sessionId)).1 with
  | error e => simp [hr]
  | ok v =>
    obtain ⟨resp, mn⟩ := v
    simp only [hr]
    split
    · split <;> rfl
    · rfl

/-- C8: with memory enabled and a truthy session id whose loaded context is
non-empty, the reconstructed context is rendered as a transcript prefix
beginning `"Previous conversation:"` with one `User:`/`Assistant:` pair per
turn in order, and this prefix is prepended to the prompt (separated by
`"\n\nCurrent request: "`) in the single backend invocation. -/
theorem c8_transcript_shape (h : MemoryHandler) (cfg : RouterConfig)
    (queryOpenai queryOllama : String → String) (env : Env) (ts : String)
    (st : Store) (prompt sid : String)
    (hen : h.enabled = true) (hsid : ¬ sid = "")
    (hctx : loadContext h env st sid ≠ [])
    (hopenai : cfg.activeModel = "openai") :
    formatContextForPrompt (loadContext h env st sid)
      = "Previous conversation:" ++ pairsStr (loadContext h env st sid)
    ∧ (processPrompt h cfg queryOpenai queryOllama env ts st prompt
        (some sid)).calls
      = [BackendCall.openai (formatContextForPrompt (loadContext h env st sid)
          ++ "\n\nCurrent request: " ++ prompt)] := by
  refine ⟨formatContext_shape _ hctx, ?_⟩
  rw [processPrompt_calls]
  have hie : (loadContext h env st sid).isEmpty = false := by
    cases hl : loadContext h env st sid with
    | nil => exact absurd hl hctx
    | cons a l => rfl
  have hco : contextFor h env st (some sid)
      = some (formatContextForPrompt (loadContext h env st sid)) := by
    simp [contextFor, hen, optTruthy, hsid, hie]
  rw [hco]
  have hfmt := formatContext_ne_empty _ hctx
  simp [routePrompt, hopenai, buildFullPrompt, hfmt]

/-- C8 witness: one stored turn for session `"a"` is rendered and prepended
on a concrete dispatch. -/
theorem c8_witness :
    formatContextForPrompt (loadContext hSessionOn envAllOk stTwo "a")
      = "Previous conversation:"
          ++ pairsStr (loadContext hSessionOn envAllOk stTwo "a")
    ∧ (processPrompt hSessionOn cfgOpenAI (fun s => s) (fun s => s) envAllOk
        "t" stTwo "q" (some "a")).calls
      = [BackendCall.openai
          (formatContextForPrompt (loadContext hSessionOn envAllOk stTwo "a")
            ++ "\n\nCurrent request: " ++ "q")] :=
  c8_transcript_shape hSessionOn cfgOpenAI (fun s => s) (fun s => s) envAllOk
    "t" stTwo "q" "a" rfl (by decide) (by decide) rfl

/-- C10: with memory enabled and no `--session-id`, `main` substitutes the
session id `"default"` and dispatches with memory active: the context is
taken from session `"default"`, the backend is invoked once, the response is
returned, and the produced turn is appended to session `"default"`. -/
theorem c10_default_session (h : MemoryHandler) (cfg : RouterConfig)
    (queryOpenai queryOllama : String → String) (env : Env) (ts : String)
    (st : Store) (prompt : String)
    (hen : h.enabled = true) (hmode : ¬ h.mode = "vector")
    (hmk : env.mkdirOk = true) (hw : env.writeOk = true)
    (hopenai : cfg.activeModel = "openai") :
    mainSessionId h.enabled none = some "default"
    ∧ (processPrompt h cfg queryOpenai queryOllama env ts st prompt
        (some "default")).result
      = .ok (queryOpenai (buildFullPrompt prompt
            (contextFor h env st (some "default"))),
          cfg.openaiModel.getD "gpt-4-turbo")
    ∧ (processPrompt h cfg queryOpenai queryOllama env ts st prompt
        (some "default")).store.files "default"
      = some ((st.files "default").getD []
          ++ [mkTurn ts (cfg.openaiModel.getD "gpt-4-turbo") prompt
              (queryOpenai (buildFullPrompt prompt
                (contextFor h env st (some "default"))))])
    ∧ (processPrompt h cfg queryOpenai queryOllama env ts st prompt
        (some "default")).calls
      = [BackendCall.openai (buildFullPrompt prompt
          (contextFor h env st (some "default")))] := by
  have hroute : routePrompt cfg queryOpenai queryOllama prompt
      (contextFor h env st (some "default"))
      = (.ok (queryOpenai (buildFullPrompt prompt
            (contextFor h env st (some "default"))),
          cfg.openaiModel.getD "gpt-4-turbo"),
         [BackendCall.openai (buildFullPrompt prompt
            (contextFor h env st (some "default")))]) := by
    simp [routePrompt, hopenai]
  have hsave := saveInteraction_session_ok h env ts st "default"
    (cfg.openaiModel.getD "gpt-4-turbo") prompt
    (queryOpenai (buildFullPrompt prompt (contextFor h env st (some "default"))))
    hen hmode hmk hw
  have htr : optTruthy (some "default") = true := rfl
  have hpp : processPrompt h cfg queryOpenai queryOllama env ts st prompt
      (some "default")
      = { result :=
            .ok (queryOpenai (buildFullPrompt prompt
                (contextFor h env st (some "default"))),
              cfg.openaiModel.getD "gpt-4-turbo"),
          store :=
            { st with
              files :=
                fsAppend st.files "default"
                  (mkTurn ts (cfg.openaiModel.getD "gpt-4-turbo") prompt
                    (queryOpenai (buildFullPrompt prompt
                      (contextFor h env st (some "default"))))) },
          calls :=
            [BackendCall.openai (buildFullPrompt prompt
              (contextFor h env st (some "default")))] } := by
    unfold processPrompt
    simp only [hroute, hen, htr, Bool.and_self, if_true, Option.getD_some]
    simp only [hsave]
  refine ⟨by simp [mainSessionId, optTruthy, hen], ?_, ?_, ?_⟩
  · rw [hpp]
  · rw [hpp]
    simp [fsAppend]
  · rw [hpp]

/-- C10 witness: the default-session dispatch at concrete inputs. -/
theorem c10_witness :
    mainSessionId hSessionOn.enabled none = some "default"
    ∧ (processPrompt hSessionOn cfgOpenAI (fun s => s) (fun s => s) envAllOk
        "t" emptyStore "q" (some "default")).result
      = .ok ((fun s => s) (buildFullPrompt "q"
            (contextFor hSessionOn envAllOk emptyStore (some "default"))),
          cfgOpenAI.openaiModel.getD "gpt-4-turbo")
    ∧ (processPrompt hSessionOn cfgOpenAI (fun s => s) (fun s => s) envAllOk
        "t" emptyStore "q" (some "default")).store.files "default"
      = some ((emptyStore.files "default").getD []
          ++ [mkTurn "t" (cfgOpenAI.openaiModel.getD "gpt-4-turbo") "q"
              ((fun s => s) (buildFullPrompt "q"
                (contextFor hSessionOn envAllOk emptyStore (some "default"))))])
    ∧ (processPrompt hSessionOn cfgOpenAI (fun s => s) (fun s => s) envAllOk
        "t" emptyStore "q" (some "default")).calls
      = [BackendCall.openai (buildFullPrompt "q"
          (contextFor hSessionOn envAllOk emptyStore (some "default")))] :=
  c10_default_session hSessionOn cfgOpenAI (fun s => s) (fun s => s) envAllOk
    "t" emptyStore "q" rfl (by decide) rfl rfl rfl
